import Mathlib

/-!
Shallow embedding of `quantum_resistant_p2p/crypto/signatures.py`.

The module defines two signature-algorithm classes, `DilithiumSignature` and
`SPHINCSSignature`, over a process-wide mutable flag `LIBOQS_AVAILABLE` and
one class-level mock-keypair registry per class.  We model:

* bytes as `List Nat` (`Bytes`);
* the process-global mutable state (`GlobalState`): the `LIBOQS_AVAILABLE`
  flag and the two class-level `_mock_keypairs` dictionaries;
* the `oqs` backend's behaviour at one call site (`Backend`): each field is
  the outcome of the corresponding backend call, `none` meaning the call
  raised an exception;
* the hash primitives (`hashlib.sha256`, `hashlib.sha384`,
  `hmac.new(·,·,sha256)`) as an abstract `HashModel` carrying only their
  output lengths;
* every operation as an explicit state-passing function; the faithful
  recursive retry (`return self.generate_keypair()` after setting
  `LIBOQS_AVAILABLE = False`) is modelled fuel-indexed
  (`..._fuel`), and in parallel as the total function obtained by unrolling
  the recursion once (proved equivalent at any fuel ≥ 2).

Each operation additionally reports which branch produced its result
(`Path.real` / `Path.mock`); this instruments the source's two code paths
without changing any computed value.
-/

namespace PQSig

/-- Byte strings, one `Nat` per byte. -/
abbrev Bytes := List Nat

/-- A Python dict from public key to private key (`_mock_keypairs`). -/
abbrev Registry := Bytes → Option Bytes

/-- `d[k] = v` on a dict. -/
def Registry.insert (r : Registry) (k v : Bytes) : Registry :=
  fun x => if x = k then some v else r x

/-- The abstract hash primitives used by the mock implementations, together
with the digest lengths guaranteed by `hashlib`/`hmac`. -/
structure HashModel where
  sha256 : Bytes → Bytes
  sha384 : Bytes → Bytes
  hmacSha256 : Bytes → Bytes → Bytes
  sha256_len : ∀ s, (sha256 s).length = 32
  sha384_len : ∀ s, (sha384 s).length = 48
  hmacSha256_len : ∀ k m, (hmacSha256 k m).length = 32

/-- `s.encode()`: the UTF-8 bytes of a string. -/
def strBytes (s : String) : Bytes := s.toUTF8.toList.map (fun b => b.toNat)

/-- Lower-case hex digit. -/
def hexChar (n : Nat) : Char :=
  if n < 10 then Char.ofNat (48 + n) else Char.ofNat (87 + n)

/-- Two lower-case hex digits of one byte, as in Python's `bytes.hex()`. -/
def byteHex (b : Nat) : String :=
  String.mk [hexChar (b / 16 % 16), hexChar (b % 16)]

/-- Python's `bytes.hex()`. -/
def bytesHex (bs : Bytes) : String := String.join (bs.map byteHex)

/-- The process-wide mutable state of the module: the global
`LIBOQS_AVAILABLE` flag and the two class-level `_mock_keypairs` dicts. -/
structure GlobalState where
  liboqs_available : Bool
  dilithium_keypairs : Registry
  sphincs_keypairs : Registry

/-- One algorithm instance: its immutable `security_level` and whether
`self.signer` is set (`true`) or `None` (`false`). -/
structure Inst where
  security_level : Nat
  signer : Bool
deriving DecidableEq, Repr

/-- Outcomes of the native `oqs` calls made during one operation, plus the
node identity read by `get_node_id()`.  A `none` field means the
corresponding backend call raised an exception. -/
structure Backend where
  enumSigs : Option (List String)
  genKeypair : Option (Bytes × Bytes)
  signRes : Option Bytes
  verifyRes : Option Bool
  sigCreateOk : Bool
  nodeId : String

/-- Which branch of an operation produced the returned value. -/
inductive Path where
  | real : Path
  | mock : Path
deriving DecidableEq, Repr

/-- Mock keypair derivation shared by `generate_keypair` of both classes
(lines 163-173 and 364-374): `private_key = sha256(seed)`,
`public_key = sha256(pub_seed)`. -/
def mock_keypair (H : HashModel) (family : String) (level : Nat)
    (nodeId : String) : Bytes × Bytes :=
  let seed := family ++ "-" ++ toString level ++ "-private-" ++ nodeId
  let private_key := H.sha256 (strBytes seed)
  let pub_seed := family ++ "-" ++ toString level ++ "-public-" ++ bytesHex private_key
  let public_key := H.sha256 (strBytes pub_seed)
  (public_key, private_key)

/-- Mock branch of `DilithiumSignature.generate_keypair` (lines 163-179):
derive the keypair and store it in `self._mock_keypairs`. -/
def dilithium_mock_generate (H : HashModel) (env : Backend) (st : GlobalState)
    (inst : Inst) : GlobalState × Bytes × Bytes :=
  let (public_key, private_key) := mock_keypair H "dilithium" inst.security_level env.nodeId
  ({st with dilithium_keypairs := st.dilithium_keypairs.insert public_key private_key},
   public_key, private_key)

/-- Mock branch of `SPHINCSSignature.generate_keypair` (lines 364-380). -/
def sphincs_mock_generate (H : HashModel) (env : Backend) (st : GlobalState)
    (inst : Inst) : GlobalState × Bytes × Bytes :=
  let (public_key, private_key) := mock_keypair H "sphincs" inst.security_level env.nodeId
  ({st with sphincs_keypairs := st.sphincs_keypairs.insert public_key private_key},
   public_key, private_key)

/-- Mock Dilithium signature (line 211): `hmac.new(private_key, message, sha256)`. -/
def dilithium_mock_sign (H : HashModel) (private_key message : Bytes) : Bytes :=
  H.hmacSha256 private_key message

/-- Mock SPHINCS+ signature (lines 412-415): `sha384(private_key || message)`. -/
def sphincs_mock_sign (H : HashModel) (private_key message : Bytes) : Bytes :=
  H.sha384 (private_key ++ message)

/-- Mock branch of `DilithiumSignature.verify` (lines 243-260): look the
public key up in `self._mock_keypairs`; on a (truthy) hit compare against the
recomputed HMAC with `hmac.compare_digest`, otherwise check the length. -/
def dilithium_mock_verify (H : HashModel) (st : GlobalState)
    (public_key message signature : Bytes) : Bool :=
  match st.dilithium_keypairs public_key with
  | some private_key =>
    if private_key.isEmpty then decide (signature.length = 32)
    else decide (signature = dilithium_mock_sign H private_key message)
  | none => decide (signature.length = 32)

/-- Mock branch of `SPHINCSSignature.verify` (lines 447-467). -/
def sphincs_mock_verify (H : HashModel) (st : GlobalState)
    (public_key message signature : Bytes) : Bool :=
  match st.sphincs_keypairs public_key with
  | some private_key =>
    if private_key.isEmpty then decide (signature.length = 48)
    else decide (signature = sphincs_mock_sign H private_key message)
  | none => decide (signature.length = 48)

/-- `DilithiumSignature.generate_keypair` (lines 155-194), faithful to the
recursion: on a backend exception the flag is cleared and the method calls
itself again.  `fuel` bounds the recursion depth; `none` means the depth
bound was exceeded. -/
def dilithium_generate_keypair_fuel (H : HashModel) (env : Backend) :
    Nat → GlobalState → Inst → Option (GlobalState × Bytes × Bytes × Path)
  | 0, _, _ => none
  | fuel + 1, st, inst =>
    if st.liboqs_available = false ∨ inst.signer = false then
      let (st', pub, priv) := dilithium_mock_generate H env st inst
      some (st', pub, priv, Path.mock)
    else
      match env.genKeypair with
      | some (pub, priv) => some (st, pub, priv, Path.real)
      | none =>
        dilithium_generate_keypair_fuel H env fuel
          { st with liboqs_available := false } inst

/-- `DilithiumSignature.generate_keypair` with the single guaranteed retry
unrolled: after the flag is cleared the re-invocation necessarily takes the
mock branch. -/
def dilithium_generate_keypair (H : HashModel) (env : Backend)
    (st : GlobalState) (inst : Inst) : GlobalState × Bytes × Bytes × Path :=
  if st.liboqs_available = false ∨ inst.signer = false then
    let (st', pub, priv) := dilithium_mock_generate H env st inst
    (st', pub, priv, Path.mock)
  else
    match env.genKeypair with
    | some (pub, priv) => (st, pub, priv, Path.real)
    | none =>
      let (st', pub, priv) :=
        dilithium_mock_generate H env { st with liboqs_available := false } inst
      (st', pub, priv, Path.mock)

/-- `DilithiumSignature.sign` (lines 196-228), fuel-indexed recursion. -/
def dilithium_sign_fuel (H : HashModel) (env : Backend) :
    Nat → GlobalState → Inst → Bytes → Bytes → Option (GlobalState × Bytes × Path)
  | 0, _, _, _, _ => none
  | fuel + 1, st, inst, private_key, message =>
    if st.liboqs_available = false ∨ inst.signer = false then
      some (st, dilithium_mock_sign H private_key message, Path.mock)
    else
      match env.signRes with
      | some s => some (st, s, Path.real)
      | none =>
        dilithium_sign_fuel H env fuel
          { st with liboqs_available := false } inst private_key message

/-- `DilithiumSignature.sign` with the retry unrolled. -/
def dilithium_sign (H : HashModel) (env : Backend) (st : GlobalState)
    (inst : Inst) (private_key message : Bytes) : GlobalState × Bytes × Path :=
  if st.liboqs_available = false ∨ inst.signer = false then
    (st, dilithium_mock_sign H private_key message, Path.mock)
  else
    match env.signRes with
    | some s => (st, s, Path.real)
    | none =>
      ({ st with liboqs_available := false },
       dilithium_mock_sign H private_key message, Path.mock)

/-- `DilithiumSignature.verify` (lines 230-273), fuel-indexed recursion. -/
def dilithium_verify_fuel (H : HashModel) (env : Backend) :
    Nat → GlobalState → Inst → Bytes → Bytes → Bytes → Option (GlobalState × Bool × Path)
  | 0, _, _, _, _, _ => none
  | fuel + 1, st, inst, public_key, message, signature =>
    if st.liboqs_available = false ∨ inst.signer = false then
      some (st, dilithium_mock_verify H st public_key message signature, Path.mock)
    else
      match env.verifyRes with
      | some b => some (st, b, Path.real)
      | none =>
        dilithium_verify_fuel H env fuel
          { st with liboqs_available := false } inst public_key message signature

/-- `DilithiumSignature.verify` with the retry unrolled. -/
def dilithium_verify (H : HashModel) (env : Backend) (st : GlobalState)
    (inst : Inst) (public_key message signature : Bytes) : GlobalState × Bool × Path :=
  if st.liboqs_available = false ∨ inst.signer = false then
    (st, dilithium_mock_verify H st public_key message signature, Path.mock)
  else
    match env.verifyRes with
    | some b => (st, b, Path.real)
    | none =>
      let st' := { st with liboqs_available := false }
      (st', dilithium_mock_verify H st' public_key message signature, Path.mock)

/-- `SPHINCSSignature.generate_keypair` (lines 356-395), fuel-indexed. -/
def sphincs_generate_keypair_fuel (H : HashModel) (env : Backend) :
    Nat → GlobalState → Inst → Option (GlobalState × Bytes × Bytes × Path)
  | 0, _, _ => none
  | fuel + 1, st, inst =>
    if st.liboqs_available = false ∨ inst.signer = false then
      let (st', pub, priv) := sphincs_mock_generate H env st inst
      some (st', pub, priv, Path.mock)
    else
      match env.genKeypair with
      | some (pub, priv) => some (st, pub, priv, Path.real)
      | none =>
        sphincs_generate_keypair_fuel H env fuel
          { st with liboqs_available := false } inst

/-- `SPHINCSSignature.generate_keypair` with the retry unrolled. -/
def sphincs_generate_keypair (H : HashModel) (env : Backend)
    (st : GlobalState) (inst : Inst) : GlobalState × Bytes × Bytes × Path :=
  if st.liboqs_available = false ∨ inst.signer = false then
    let (st', pub, priv) := sphincs_mock_generate H env st inst
    (st', pub, priv, Path.mock)
  else
    match env.genKeypair with
    | some (pub, priv) => (st, pub, priv, Path.real)
    | none =>
      let (st', pub, priv) :=
        sphincs_mock_generate H env { st with liboqs_available := false } inst
      (st', pub, priv, Path.mock)

/-- `SPHINCSSignature.sign` (lines 397-432), fuel-indexed. -/
def sphincs_sign_fuel (H : HashModel) (env : Backend) :
    Nat → GlobalState → Inst → Bytes → Bytes → Option (GlobalState × Bytes × Path)
  | 0, _, _, _, _ => none
  | fuel + 1, st, inst, private_key, message =>
    if st.liboqs_available = false ∨ inst.signer = false then
      some (st, sphincs_mock_sign H private_key message, Path.mock)
    else
      match env.signRes with
      | some s => some (st, s, Path.real)
      | none =>
        sphincs_sign_fuel H env fuel
          { st with liboqs_available := false } inst private_key message

/-- `SPHINCSSignature.sign` with the retry unrolled. -/
def sphincs_sign (H : HashModel) (env : Backend) (st : GlobalState)
    (inst : Inst) (private_key message : Bytes) : GlobalState × Bytes × Path :=
  if st.liboqs_available = false ∨ inst.signer = false then
    (st, sphincs_mock_sign H private_key message, Path.mock)
  else
    match env.signRes with
    | some s => (st, s, Path.real)
    | none =>
      ({ st with liboqs_available := false },
       sphincs_mock_sign H private_key message, Path.mock)

/-- `SPHINCSSignature.verify` (lines 434-480), fuel-indexed. -/
def sphincs_verify_fuel (H : HashModel) (env : Backend) :
    Nat → GlobalState → Inst → Bytes → Bytes → Bytes → Option (GlobalState × Bool × Path)
  | 0, _, _, _, _, _ => none
  | fuel + 1, st, inst, public_key, message, signature =>
    if st.liboqs_available = false ∨ inst.signer = false then
      some (st, sphincs_mock_verify H st public_key message signature, Path.mock)
    else
      match env.verifyRes with
      | some b => some (st, b, Path.real)
      | none =>
        sphincs_verify_fuel H env fuel
          { st with liboqs_available := false } inst public_key message signature

/-- `SPHINCSSignature.verify` with the retry unrolled. -/
def sphincs_verify (H : HashModel) (env : Backend) (st : GlobalState)
    (inst : Inst) (public_key message signature : Bytes) : GlobalState × Bool × Path :=
  if st.liboqs_available = false ∨ inst.signer = false then
    (st, sphincs_mock_verify H st public_key message signature, Path.mock)
  else
    match env.verifyRes with
    | some b => (st, b, Path.real)
    | none =>
      let st' := { st with liboqs_available := false }
      (st', sphincs_mock_verify H st' public_key message signature, Path.mock)

/-- Variant names for the Dilithium security levels (lines 110-114). -/
def dilithium_variants (level : Nat) : List String :=
  match level with
  | 2 => ["ML-DSA-44", "Dilithium2"]
  | 3 => ["ML-DSA-65", "Dilithium3"]
  | 5 => ["ML-DSA-87", "Dilithium5"]
  | _ => []

/-- Variant names for the SPHINCS+ security levels (lines 311-315). -/
def sphincs_variants (level : Nat) : List String :=
  match level with
  | 1 => ["SPHINCS+-SHA2-128f-simple"]
  | 3 => ["SPHINCS+-SHA2-192f-simple"]
  | 5 => ["SPHINCS+-SHA2-256f-simple"]
  | _ => []

/-- `DilithiumSignature.__init__` (lines 83-140).  Takes the current value
of `LIBOQS_AVAILABLE`, returns the constructed instance together with the
new flag value, or raises `ValueError` on an unsupported level.  The level
check (line 116) sits after the two early mock returns, so it only runs when
the flag is still set and mechanism enumeration succeeded. -/
def dilithium_init (env : Backend) (avail : Bool) (level : Nat) :
    Except String (Inst × Bool) :=
  match avail, env.enumSigs with
  | false, _ => Except.ok ({ security_level := level, signer := false }, false)
  | true, none => Except.ok ({ security_level := level, signer := false }, false)
  | true, some enabled =>
    if (dilithium_variants level).isEmpty then
      Except.error ("Invalid security level: " ++ toString level ++ ". Must be 2, 3, or 5.")
    else
      match (dilithium_variants level).find? (fun v => enabled.contains v) with
      | none => Except.ok ({ security_level := level, signer := false }, false)
      | some _ =>
        if env.sigCreateOk then
          Except.ok ({ security_level := level, signer := true }, true)
        else
          Except.ok ({ security_level := level, signer := false }, false)

/-- `SPHINCSSignature.__init__` (lines 285-341). -/
def sphincs_init (env : Backend) (avail : Bool) (level : Nat) :
    Except String (Inst × Bool) :=
  match avail, env.enumSigs with
  | false, _ => Except.ok ({ security_level := level, signer := false }, false)
  | true, none => Except.ok ({ security_level := level, signer := false }, false)
  | true, some enabled =>
    if (sphincs_variants level).isEmpty then
      Except.error ("Invalid security level: " ++ toString level ++ ". Must be 1, 3, or 5.")
    else
      match (sphincs_variants level).find? (fun v => enabled.contains v) with
      | none => Except.ok ({ security_level := level, signer := false }, false)
      | some _ =>
        if env.sigCreateOk then
          Except.ok ({ security_level := level, signer := true }, true)
        else
          Except.ok ({ security_level := level, signer := false }, false)

/-- One call against the module: a constructor or an operation of either
class, on a given instance with given arguments. -/
inductive Op where
  | dGen (inst : Inst)
  | dSign (inst : Inst) (private_key message : Bytes)
  | dVerify (inst : Inst) (public_key message signature : Bytes)
  | sGen (inst : Inst)
  | sSign (inst : Inst) (private_key message : Bytes)
  | sVerify (inst : Inst) (public_key message signature : Bytes)
  | dInit (level : Nat)
  | sInit (level : Nat)

/-- The value a call returns to its caller, tagged with the branch that
produced it (constructors carry no branch tag). -/
inductive StepOut where
  | keypair (public_key private_key : Bytes) (p : Path)
  | sigBytes (s : Bytes) (p : Path)
  | verdict (b : Bool) (p : Path)
  | constructed (inst : Inst)
  | configError (msg : String)

/-- The branch tag of a returned value, if any. -/
def StepOut.path : StepOut → Option Path
  | .keypair _ _ p => some p
  | .sigBytes _ p => some p
  | .verdict _ p => some p
  | .constructed _ => none
  | .configError _ => none

/-- Execute one call against the process state, with the given backend
behaviour for that call. -/
def step (H : HashModel) (st : GlobalState) (a : Op × Backend) :
    GlobalState × StepOut :=
  match a.1 with
  | .dGen inst =>
    let (st', pub, priv, p) := dilithium_generate_keypair H a.2 st inst
    (st', .keypair pub priv p)
  | .dSign inst priv m =>
    let (st', s, p) := dilithium_sign H a.2 st inst priv m
    (st', .sigBytes s p)
  | .dVerify inst pub m sig =>
    let (st', b, p) := dilithium_verify H a.2 st inst pub m sig
    (st', .verdict b p)
  | .sGen inst =>
    let (st', pub, priv, p) := sphincs_generate_keypair H a.2 st inst
    (st', .keypair pub priv p)
  | .sSign inst priv m =>
    let (st', s, p) := sphincs_sign H a.2 st inst priv m
    (st', .sigBytes s p)
  | .sVerify inst pub m sig =>
    let (st', b, p) := sphincs_verify H a.2 st inst pub m sig
    (st', .verdict b p)
  | .dInit level =>
    match dilithium_init a.2 st.liboqs_available level with
    | .ok (inst, flag) => ({ st with liboqs_available := flag }, .constructed inst)
    | .error e => (st, .configError e)
  | .sInit level =>
    match sphincs_init a.2 st.liboqs_available level with
    | .ok (inst, flag) => ({ st with liboqs_available := flag }, .constructed inst)
    | .error e => (st, .configError e)

/-- Execute a sequence of calls. -/
def run (H : HashModel) (st : GlobalState) (acts : List (Op × Backend)) :
    GlobalState :=
  acts.foldl (fun s a => (step H s a).1) st

/-- Flip bit `k` of byte `i` of a byte string. -/
def flipBit : Bytes → Nat → Nat → Bytes
  | [], _, _ => []
  | b :: bs, 0, k => (b ^^^ (1 <<< k)) :: bs
  | b :: bs, i + 1, k => b :: flipBit bs i k

/-! ### Concrete fixtures for witnesses -/

/-- A concrete hash model (constant digests of the right lengths). -/
def zeroHash : HashModel where
  sha256 := fun _ => List.replicate 32 0
  sha384 := fun _ => List.replicate 48 0
  hmacSha256 := fun _ _ => List.replicate 32 0
  sha256_len := fun _ => by simp
  sha384_len := fun _ => by simp
  hmacSha256_len := fun _ _ => by simp

/-- A backend whose every operation raises. -/
def env0 : Backend :=
  { enumSigs := some [], genKeypair := none, signRes := none,
    verifyRes := none, sigCreateOk := true, nodeId := "node" }

/-- A fully working backend. -/
def envOk : Backend :=
  { enumSigs := some ["ML-DSA-65", "SPHINCS+-SHA2-192f-simple"],
    genKeypair := some ([1], [2]), signRes := some [3],
    verifyRes := some true, sigCreateOk := true, nodeId := "node" }

/-- Initial state with the backend unavailable and empty registries. -/
def st0 : GlobalState :=
  { liboqs_available := false, dilithium_keypairs := fun _ => none,
    sphincs_keypairs := fun _ => none }

/-- Initial state with the backend available and empty registries. -/
def stTrue : GlobalState :=
  { liboqs_available := true, dilithium_keypairs := fun _ => none,
    sphincs_keypairs := fun _ => none }

/-- A mock-mode instance (`self.signer is None`) at level 3. -/
def inst0 : Inst := { security_level := 3, signer := false }

/-- An instance holding a live backend signer, at level 3. -/
def instR : Inst := { security_level := 3, signer := true }

/-! ### Helper lemmas -/

/-- Dict update keeps every previously present key present. -/
theorem Registry.insert_mem (r : Registry) (k v x : Bytes)
    (h : r x ≠ none) : Registry.insert r k v x ≠ none := by
  unfold Registry.insert
  split <;> simp [h]

/-- XORing in a single set bit changes the byte. -/
theorem xor_bit_ne (b k : Nat) : b ^^^ 1 <<< k ≠ b := by
  intro h
  have h1 : b ^^^ (b ^^^ 1 <<< k) = b ^^^ b := congrArg (fun x => b ^^^ x) h
  rw [← Nat.xor_assoc, Nat.xor_self, Nat.zero_xor] at h1
  rw [Nat.one_shiftLeft] at h1
  exact absurd h1 (Nat.pos_iff_ne_zero.mp (Nat.pos_pow_of_pos k (by norm_num)))

/-- Flipping a bit inside the string changes the string. -/
theorem flipBit_ne (bs : Bytes) (i k : Nat) (h : i < bs.length) :
    flipBit bs i k ≠ bs := by
  induction bs generalizing i with
  | nil => simp at h
  | cons b bs ih =>
    cases i with
    | zero =>
      simp only [flipBit, ne_eq, List.cons.injEq, not_and]
      intro hb
      exact absurd hb (xor_bit_ne b k)
    | succ i =>
      simp only [flipBit, ne_eq, List.cons.injEq, true_and]
      exact ih i (Nat.lt_of_succ_lt_succ h)

/-- A single step never resurrects the availability flag. -/
theorem step_flag_mono (H : HashModel) (st : GlobalState) (a : Op × Backend)
    (h : st.liboqs_available = false) :
    (step H st a).1.liboqs_available = false := by
  obtain ⟨op, env⟩ := a
  cases op <;>
    simp [step, dilithium_generate_keypair, dilithium_sign, dilithium_verify,
      sphincs_generate_keypair, sphincs_sign, sphincs_verify,
      dilithium_mock_generate, sphincs_mock_generate, mock_keypair,
      dilithium_init, sphincs_init, h]

/-- A whole trace never resurrects the availability flag. -/
theorem run_flag_mono (H : HashModel) (acts : List (Op × Backend))
    (st : GlobalState) (h : st.liboqs_available = false) :
    (run H st acts).liboqs_available = false := by
  induction acts generalizing st with
  | nil => exact h
  | cons a acts ih =>
    exact ih _ (step_flag_mono H st a h)

/-- A single step keeps every registered Dilithium public key registered. -/
theorem step_dreg_mono (H : HashModel) (st : GlobalState) (a : Op × Backend)
    (k : Bytes) (h : st.dilithium_keypairs k ≠ none) :
    (step H st a).1.dilithium_keypairs k ≠ none := by
  obtain ⟨op, env⟩ := a
  cases op <;>
    simp only [step, dilithium_generate_keypair, dilithium_sign, dilithium_verify,
      sphincs_generate_keypair, sphincs_sign, sphincs_verify,
      dilithium_mock_generate, sphincs_mock_generate,
      dilithium_init, sphincs_init] <;>
    repeat' split <;>
    first
      | exact h
      | exact Registry.insert_mem _ _ _ _ h
      | simp [h]

/-- A single step keeps every registered SPHINCS+ public key registered. -/
theorem step_sreg_mono (H : HashModel) (st : GlobalState) (a : Op × Backend)
    (k : Bytes) (h : st.sphincs_keypairs k ≠ none) :
    (step H st a).1.sphincs_keypairs k ≠ none := by
  obtain ⟨op, env⟩ := a
  cases op <;>
    simp only [step, dilithium_generate_keypair, dilithium_sign, dilithium_verify,
      sphincs_generate_keypair, sphincs_sign, sphincs_verify,
      dilithium_mock_generate, sphincs_mock_generate,
      dilithium_init, sphincs_init] <;>
    repeat' split <;>
    first
      | exact h
      | exact Registry.insert_mem _ _ _ _ h
      | simp [h]

/-- A whole trace keeps every registered Dilithium public key registered. -/
theorem run_dreg_mono (H : HashModel) (acts : List (Op × Backend))
    (st : GlobalState) (k : Bytes) (h : st.dilithium_keypairs k ≠ none) :
    (run H st acts).dilithium_keypairs k ≠ none := by
  induction acts generalizing st with
  | nil => exact h
  | cons a acts ih => exact ih _ (step_dreg_mono H st a k h)

/-- A whole trace keeps every registered SPHINCS+ public key registered. -/
theorem run_sreg_mono (H : HashModel) (acts : List (Op × Backend))
    (st : GlobalState) (k : Bytes) (h : st.sphincs_keypairs k ≠ none) :
    (run H st acts).sphincs_keypairs k ≠ none := by
  induction acts generalizing st with
  | nil => exact h
  | cons a acts ih => exact ih _ (step_sreg_mono H st a k h)

/-- A SHA-256 digest is never the empty byte string. -/
theorem HashModel.sha256_isEmpty (H : HashModel) (s : Bytes) :
    (H.sha256 s).isEmpty = false := by
  have h := H.sha256_len s
  cases hs : H.sha256 s with
  | nil => rw [hs] at h; simp at h
  | cons a l => simp

/-- A SHA-384 digest is never the empty byte string. -/
theorem HashModel.sha384_isEmpty (H : HashModel) (s : Bytes) :
    (H.sha384 s).isEmpty = false := by
  have h := H.sha384_len s
  cases hs : H.sha384 s with
  | nil => rw [hs] at h; simp at h
  | cons a l => simp

/-- The public key the Dilithium mock derivation produces. -/
def dilithium_mock_pub (H : HashModel) (level : Nat) (nodeId : String) : Bytes :=
  (mock_keypair H "dilithium" level nodeId).1

/-- The private key the Dilithium mock derivation produces. -/
def dilithium_mock_priv (H : HashModel) (level : Nat) (nodeId : String) : Bytes :=
  (mock_keypair H "dilithium" level nodeId).2

/-- The public key the SPHINCS+ mock derivation produces. -/
def sphincs_mock_pub (H : HashModel) (level : Nat) (nodeId : String) : Bytes :=
  (mock_keypair H "sphincs" level nodeId).1

/-- The private key the SPHINCS+ mock derivation produces. -/
def sphincs_mock_priv (H : HashModel) (level : Nat) (nodeId : String) : Bytes :=
  (mock_keypair H "sphincs" level nodeId).2

/-- In mock mode, `DilithiumSignature.generate_keypair` derives the keypair
and records it. -/
theorem dilithium_gen_mock_eq (H : HashModel) (env : Backend)
    (st : GlobalState) (inst : Inst)
    (hmock : st.liboqs_available = false ∨ inst.signer = false) :
    dilithium_generate_keypair H env st inst =
      ({ st with dilithium_keypairs := st.dilithium_keypairs.insert (dilithium_mock_pub H inst.security_level env.nodeId) (dilithium_mock_priv H inst.security_level env.nodeId) },
       dilithium_mock_pub H inst.security_level env.nodeId,
       dilithium_mock_priv H inst.security_level env.nodeId,
       Path.mock) := by
  simp [dilithium_generate_keypair, if_pos hmock, dilithium_mock_generate,
    dilithium_mock_pub, dilithium_mock_priv]

/-- In mock mode, `SPHINCSSignature.generate_keypair` derives the keypair
and records it. -/
theorem sphincs_gen_mock_eq (H : HashModel) (env : Backend)
    (st : GlobalState) (inst : Inst)
    (hmock : st.liboqs_available = false ∨ inst.signer = false) :
    sphincs_generate_keypair H env st inst =
      ({ st with sphincs_keypairs := st.sphincs_keypairs.insert (sphincs_mock_pub H inst.security_level env.nodeId) (sphincs_mock_priv H inst.security_level env.nodeId) },
       sphincs_mock_pub H inst.security_level env.nodeId,
       sphincs_mock_priv H inst.security_level env.nodeId,
       Path.mock) := by
  simp [sphincs_generate_keypair, if_pos hmock, sphincs_mock_generate,
    sphincs_mock_pub, sphincs_mock_priv]

/-- In mock mode, `DilithiumSignature.sign` is the keyed HMAC and leaves the
state alone. -/
theorem dilithium_sign_mock_eq (H : HashModel) (env : Backend)
    (st : GlobalState) (inst : Inst) (private_key message : Bytes)
    (hmock : st.liboqs_available = false ∨ inst.signer = false) :
    dilithium_sign H env st inst private_key message =
      (st, dilithium_mock_sign H private_key message, Path.mock) := by
  simp [dilithium_sign, if_pos hmock]

/-- In mock mode, `SPHINCSSignature.sign` is the SHA-384 digest and leaves
the state alone. -/
theorem sphincs_sign_mock_eq (H : HashModel) (env : Backend)
    (st : GlobalState) (inst : Inst) (private_key message : Bytes)
    (hmock : st.liboqs_available = false ∨ inst.signer = false) :
    sphincs_sign H env st inst private_key message =
      (st, sphincs_mock_sign H private_key message, Path.mock) := by
  simp [sphincs_sign, if_pos hmock]

/-- In mock mode, `DilithiumSignature.verify` is the mock verification and
leaves the state alone. -/
theorem dilithium_verify_mock_eq (H : HashModel) (env : Backend)
    (st : GlobalState) (inst : Inst) (public_key message signature : Bytes)
    (hmock : st.liboqs_available = false ∨ inst.signer = false) :
    dilithium_verify H env st inst public_key message signature =
      (st, dilithium_mock_verify H st public_key message signature, Path.mock) := by
  simp [dilithium_verify, if_pos hmock]

/-- In mock mode, `SPHINCSSignature.verify` is the mock verification and
leaves the state alone. -/
theorem sphincs_verify_mock_eq (H : HashModel) (env : Backend)
    (st : GlobalState) (inst : Inst) (public_key message signature : Bytes)
    (hmock : st.liboqs_available = false ∨ inst.signer = false) :
    sphincs_verify H env st inst public_key message signature =
      (st, sphincs_mock_verify H st public_key message signature, Path.mock) := by
  simp [sphincs_verify, if_pos hmock]

/-- Levels other than 2, 3, 5 have no Dilithium variants. -/
theorem dilithium_variants_eq_nil (level : Nat)
    (h : level ≠ 2 ∧ level ≠ 3 ∧ level ≠ 5) : dilithium_variants level = [] := by
  rcases level with _ | _ | _ | _ | _ | _ | level
  · rfl
  · rfl
  · exact absurd rfl h.1
  · exact absurd rfl h.2.1
  · rfl
  · exact absurd rfl h.2.2
  · rfl

/-- Levels other than 1, 3, 5 have no SPHINCS+ variants. -/
theorem sphincs_variants_eq_nil (level : Nat)
    (h : level ≠ 1 ∧ level ≠ 3 ∧ level ≠ 5) : sphincs_variants level = [] := by
  rcases level with _ | _ | _ | _ | _ | _ | level
  · rfl
  · exact absurd rfl h.1
  · rfl
  · exact absurd rfl h.2.1
  · rfl
  · exact absurd rfl h.2.2
  · rfl

/-- C1 counterexample: with the backend unavailable, constructing Dilithium
at the unsupported level 4 (and SPHINCS+ at the unsupported level 2) raises
nothing at all — it returns a mock-mode instance.  The early
`if not LIBOQS_AVAILABLE: return` sits before the level check, so the
`ValueError` is not raised "regardless of whether the native backend is
available". -/
theorem C1_counterexample :
    dilithium_init env0 false 4 =
      Except.ok ({ security_level := 4, signer := false }, false)
    ∧ sphincs_init env0 false 2 =
      Except.ok ({ security_level := 2, signer := false }, false) :=
  ⟨rfl, rfl⟩

/-- C1 (amended): when the availability flag is still set and mechanism
enumeration succeeds, constructing either class at a level outside its
supported set raises `ValueError`, and the construction step leaves the
process state (in particular both mock key registries) untouched; when the
flag is already cleared, construction instead succeeds in mock mode without
validating the level. -/
theorem C1_invalid_level_rejected_when_backend_available (H : HashModel)
    (st : GlobalState) (env : Backend) (enabled : List String)
    (dlevel slevel : Nat)
    (henum : env.enumSigs = some enabled)
    (havail : st.liboqs_available = true)
    (hd : dlevel ≠ 2 ∧ dlevel ≠ 3 ∧ dlevel ≠ 5)
    (hs : slevel ≠ 1 ∧ slevel ≠ 3 ∧ slevel ≠ 5) :
    dilithium_init env true dlevel =
      Except.error ("Invalid security level: " ++ toString dlevel ++ ". Must be 2, 3, or 5.")
    ∧ sphincs_init env true slevel =
      Except.error ("Invalid security level: " ++ toString slevel ++ ". Must be 1, 3, or 5.")
    ∧ (step H st (Op.dInit dlevel, env)).1 = st
    ∧ (step H st (Op.sInit slevel, env)).1 = st := by
  have hd' := dilithium_variants_eq_nil dlevel hd
  have hs' := sphincs_variants_eq_nil slevel hs
  refine ⟨?_, ?_, ?_, ?_⟩ <;>
    simp [dilithium_init, sphincs_init, step, henum, havail, hd', hs']

/-- C1 witness. -/
theorem C1_witness :
    env0.enumSigs = some [] ∧ stTrue.liboqs_available = true
    ∧ ((4:Nat) ≠ 2 ∧ (4:Nat) ≠ 3 ∧ (4:Nat) ≠ 5)
    ∧ ((2:Nat) ≠ 1 ∧ (2:Nat) ≠ 3 ∧ (2:Nat) ≠ 5)
    ∧ (dilithium_init env0 true 4 =
        Except.error ("Invalid security level: " ++ toString (4:Nat) ++ ". Must be 2, 3, or 5.")
      ∧ sphincs_init env0 true 2 =
        Except.error ("Invalid security level: " ++ toString (2:Nat) ++ ". Must be 1, 3, or 5.")
      ∧ (step zeroHash stTrue (Op.dInit 4, env0)).1 = stTrue
      ∧ (step zeroHash stTrue (Op.sInit 2, env0)).1 = stTrue) :=
  ⟨rfl, rfl, by decide, by decide,
    C1_invalid_level_rejected_when_backend_available zeroHash stTrue env0 [] 4 2
      rfl rfl (by decide) (by decide)⟩

/-- The Dilithium mock private key is never empty. -/
theorem dilithium_mock_priv_isEmpty (H : HashModel) (l : Nat) (n : String) :
    (dilithium_mock_priv H l n).isEmpty = false :=
  H.sha256_isEmpty _

/-- The SPHINCS+ mock private key is never empty. -/
theorem sphincs_mock_priv_isEmpty (H : HashModel) (l : Nat) (n : String) :
    (sphincs_mock_priv H l n).isEmpty = false :=
  H.sha256_isEmpty _

/-- C2: in mock mode, for every message and for the (public, private) pair
returned together by one `generate_keypair` call of either class, signing
the message with the private key and verifying with the public key
succeeds. -/
theorem C2_sign_verify_roundtrip (H : HashModel)
    (envG envS envV envG' envS' envV' : Backend)
    (stD stS st₁ st₂ st₃ st₄ : GlobalState) (instD instS : Inst)
    (m m' pubD privD pubS privS sigD sigS : Bytes) (p₁ p₂ p₃ p₄ : Path)
    (hmockD : stD.liboqs_available = false ∨ instD.signer = false)
    (hmockS : stS.liboqs_available = false ∨ instS.signer = false)
    (hgenD : dilithium_generate_keypair H envG stD instD = (st₁, pubD, privD, p₁))
    (hsigD : dilithium_sign H envS st₁ instD privD m = (st₂, sigD, p₂))
    (hgenS : sphincs_generate_keypair H envG' stS instS = (st₃, pubS, privS, p₃))
    (hsigS : sphincs_sign H envS' st₃ instS privS m' = (st₄, sigS, p₄)) :
    (dilithium_verify H envV st₂ instD pubD m sigD).2.1 = true
    ∧ (sphincs_verify H envV' st₄ instS pubS m' sigS).2.1 = true := by
  constructor
  · rw [dilithium_gen_mock_eq H envG stD instD hmockD] at hgenD
    simp only [Prod.mk.injEq] at hgenD
    obtain ⟨h1, h2, h3, h4⟩ := hgenD
    subst h1 h2 h3
    rw [dilithium_sign_mock_eq H envS _ instD _ m (by simpa using hmockD)] at hsigD
    simp only [Prod.mk.injEq] at hsigD
    obtain ⟨h5, h6, h7⟩ := hsigD
    subst h5 h6
    rw [dilithium_verify_mock_eq H envV _ instD _ m _ (by simpa using hmockD)]
    simp [dilithium_mock_verify, Registry.insert,
      dilithium_mock_priv_isEmpty]
  · rw [sphincs_gen_mock_eq H envG' stS instS hmockS] at hgenS
    simp only [Prod.mk.injEq] at hgenS
    obtain ⟨h1, h2, h3, h4⟩ := hgenS
    subst h1 h2 h3
    rw [sphincs_sign_mock_eq H envS' _ instS _ m' (by simpa using hmockS)] at hsigS
    simp only [Prod.mk.injEq] at hsigS
    obtain ⟨h5, h6, h7⟩ := hsigS
    subst h5 h6
    rw [sphincs_verify_mock_eq H envV' _ instS _ m' _ (by simpa using hmockS)]
    simp [sphincs_mock_verify, Registry.insert,
      sphincs_mock_priv_isEmpty]

/-- State after a mock Dilithium keypair generation from `st0`. -/
def wStD : GlobalState :=
  { st0 with dilithium_keypairs := st0.dilithium_keypairs.insert (dilithium_mock_pub zeroHash 3 "node") (dilithium_mock_priv zeroHash 3 "node") }

/-- State after a mock SPHINCS+ keypair generation from `st0`. -/
def wStS : GlobalState :=
  { st0 with sphincs_keypairs := st0.sphincs_keypairs.insert (sphincs_mock_pub zeroHash 3 "node") (sphincs_mock_priv zeroHash 3 "node") }

/-- C2 witness. -/
theorem C2_witness :
    (st0.liboqs_available = false ∨ inst0.signer = false)
    ∧ dilithium_generate_keypair zeroHash env0 st0 inst0 =
        (wStD, dilithium_mock_pub zeroHash 3 "node", dilithium_mock_priv zeroHash 3 "node", Path.mock)
    ∧ dilithium_sign zeroHash env0 wStD inst0 (dilithium_mock_priv zeroHash 3 "node") [7] =
        (wStD, dilithium_mock_sign zeroHash (dilithium_mock_priv zeroHash 3 "node") [7], Path.mock)
    ∧ sphincs_generate_keypair zeroHash env0 st0 inst0 =
        (wStS, sphincs_mock_pub zeroHash 3 "node", sphincs_mock_priv zeroHash 3 "node", Path.mock)
    ∧ sphincs_sign zeroHash env0 wStS inst0 (sphincs_mock_priv zeroHash 3 "node") [8] =
        (wStS, sphincs_mock_sign zeroHash (sphincs_mock_priv zeroHash 3 "node") [8], Path.mock)
    ∧ ((dilithium_verify zeroHash env0 wStD inst0 (dilithium_mock_pub zeroHash 3 "node") [7]
          (dilithium_mock_sign zeroHash (dilithium_mock_priv zeroHash 3 "node") [7])).2.1 = true
      ∧ (sphincs_verify zeroHash env0 wStS inst0 (sphincs_mock_pub zeroHash 3 "node") [8]
          (sphincs_mock_sign zeroHash (sphincs_mock_priv zeroHash 3 "node") [8])).2.1 = true) :=
  ⟨Or.inl rfl, rfl, rfl, rfl, rfl, by
    exact C2_sign_verify_roundtrip zeroHash env0 env0 env0 env0 env0 env0
      st0 st0 _ _ _ _ inst0 inst0 [7] [8] _ _ _ _ _ _ _ _ _ _
      (Or.inl rfl) (Or.inl rfl) rfl rfl rfl rfl⟩

/-- The claim's formula for the mock private key:
`SHA-256("{family}-{level}-private-{node_id}")`. -/
def claimed_mock_private_key (H : HashModel) (family : String) (level : Nat)
    (nodeId : String) : Bytes :=
  H.sha256 (strBytes (family ++ "-" ++ toString level ++ "-private-" ++ nodeId))

/-- The claim's formula for the mock public key:
`SHA-256("{family}-{level}-public-{private_key.hex()}")`. -/
def claimed_mock_public_key (H : HashModel) (family : String) (level : Nat)
    (private_key : Bytes) : Bytes :=
  H.sha256 (strBytes (family ++ "-" ++ toString level ++ "-public-" ++ bytesHex private_key))

/-- C6: in mock mode `generate_keypair` returns exactly the hash-derived
keys of the claim (32 bytes each, family string "dilithium" resp.
"sphincs"), and mock `sign` is the 32-byte HMAC-SHA256 for Dilithium resp.
the 48-byte SHA-384 of key‖message for SPHINCS+. -/
theorem C6_mock_derivation_formulas (H : HashModel) (env : Backend)
    (st : GlobalState) (inst : Inst) (private_key m : Bytes)
    (hmock : st.liboqs_available = false ∨ inst.signer = false) :
    ((dilithium_generate_keypair H env st inst).2.2.1 =
        claimed_mock_private_key H "dilithium" inst.security_level env.nodeId
    ∧ (dilithium_generate_keypair H env st inst).2.1 =
        claimed_mock_public_key H "dilithium" inst.security_level
          (dilithium_generate_keypair H env st inst).2.2.1
    ∧ (dilithium_generate_keypair H env st inst).2.1.length = 32
    ∧ (dilithium_generate_keypair H env st inst).2.2.1.length = 32)
    ∧ ((sphincs_generate_keypair H env st inst).2.2.1 =
        claimed_mock_private_key H "sphincs" inst.security_level env.nodeId
    ∧ (sphincs_generate_keypair H env st inst).2.1 =
        claimed_mock_public_key H "sphincs" inst.security_level
          (sphincs_generate_keypair H env st inst).2.2.1
    ∧ (sphincs_generate_keypair H env st inst).2.1.length = 32
    ∧ (sphincs_generate_keypair H env st inst).2.2.1.length = 32)
    ∧ ((dilithium_sign H env st inst private_key m).2.1 = H.hmacSha256 private_key m
    ∧ (dilithium_sign H env st inst private_key m).2.1.length = 32)
    ∧ ((sphincs_sign H env st inst private_key m).2.1 = H.sha384 (private_key ++ m)
    ∧ (sphincs_sign H env st inst private_key m).2.1.length = 48) := by
  rw [dilithium_gen_mock_eq H env st inst hmock,
    sphincs_gen_mock_eq H env st inst hmock,
    dilithium_sign_mock_eq H env st inst private_key m hmock,
    sphincs_sign_mock_eq H env st inst private_key m hmock]
  refine ⟨⟨rfl, rfl, ?_, ?_⟩, ⟨rfl, rfl, ?_, ?_⟩, ⟨rfl, ?_⟩, ⟨rfl, ?_⟩⟩ <;>
    first
      | exact H.sha256_len _
      | exact H.hmacSha256_len _ _
      | exact H.sha384_len _

/-- C6 witness. -/
theorem C6_witness :
    (st0.liboqs_available = false ∨ inst0.signer = false)
    ∧ (((dilithium_generate_keypair zeroHash env0 st0 inst0).2.2.1 =
        claimed_mock_private_key zeroHash "dilithium" inst0.security_level env0.nodeId
    ∧ (dilithium_generate_keypair zeroHash env0 st0 inst0).2.1 =
        claimed_mock_public_key zeroHash "dilithium" inst0.security_level
          (dilithium_generate_keypair zeroHash env0 st0 inst0).2.2.1
    ∧ (dilithium_generate_keypair zeroHash env0 st0 inst0).2.1.length = 32
    ∧ (dilithium_generate_keypair zeroHash env0 st0 inst0).2.2.1.length = 32)
    ∧ ((sphincs_generate_keypair zeroHash env0 st0 inst0).2.2.1 =
        claimed_mock_private_key zeroHash "sphincs" inst0.security_level env0.nodeId
    ∧ (sphincs_generate_keypair zeroHash env0 st0 inst0).2.1 =
        claimed_mock_public_key zeroHash "sphincs" inst0.security_level
          (sphincs_generate_keypair zeroHash env0 st0 inst0).2.2.1
    ∧ (sphincs_generate_keypair zeroHash env0 st0 inst0).2.1.length = 32
    ∧ (sphincs_generate_keypair zeroHash env0 st0 inst0).2.2.1.length = 32)
    ∧ ((dilithium_sign zeroHash env0 st0 inst0 [9] [3]).2.1 = zeroHash.hmacSha256 [9] [3]
    ∧ (dilithium_sign zeroHash env0 st0 inst0 [9] [3]).2.1.length = 32)
    ∧ ((sphincs_sign zeroHash env0 st0 inst0 [9] [3]).2.1 = zeroHash.sha384 ([9] ++ [3])
    ∧ (sphincs_sign zeroHash env0 st0 inst0 [9] [3]).2.1.length = 48)) :=
  ⟨Or.inl rfl,
    C6_mock_derivation_formulas zeroHash env0 st0 inst0 [9] [3] (Or.inl rfl)⟩

/-- C7: in mock mode, on a registry hit `verify` succeeds exactly when the
supplied signature equals the recomputed one; in particular flipping any bit
of a valid signature makes `verify` return `false`. -/
theorem C7_registry_hit_tamper_detection (H : HashModel) (env env' : Backend)
    (st : GlobalState) (inst : Inst) (pubD pubS m sigD sigS privD privS : Bytes)
    (i k i' k' : Nat)
    (hmock : st.liboqs_available = false ∨ inst.signer = false)
    (hhitD : st.dilithium_keypairs pubD = some privD) (hneD : privD ≠ [])
    (hhitS : st.sphincs_keypairs pubS = some privS) (hneS : privS ≠ [])
    (hi : i < (dilithium_mock_sign H privD m).length) ( _hk : k < 8)
    (hi' : i' < (sphincs_mock_sign H privS m).length) ( _hk' : k' < 8) :
    ((dilithium_verify H env st inst pubD m sigD).2.1 = true
      ↔ sigD = dilithium_mock_sign H privD m)
    ∧ (dilithium_verify H env st inst pubD m
        (flipBit (dilithium_mock_sign H privD m) i k)).2.1 = false
    ∧ ((sphincs_verify H env' st inst pubS m sigS).2.1 = true
      ↔ sigS = sphincs_mock_sign H privS m)
    ∧ (sphincs_verify H env' st inst pubS m
        (flipBit (sphincs_mock_sign H privS m) i' k')).2.1 = false := by
  have hneD' : privD.isEmpty = false := by
    cases privD with
    | nil => exact absurd rfl hneD
    | cons a l => simp
  have hneS' : privS.isEmpty = false := by
    cases privS with
    | nil => exact absurd rfl hneS
    | cons a l => simp
  refine ⟨?_, ?_, ?_, ?_⟩ <;>
    simp [dilithium_verify_mock_eq H env st inst _ m _ hmock,
      sphincs_verify_mock_eq H env' st inst _ m _ hmock,
      dilithium_mock_verify, sphincs_mock_verify, hhitD, hhitS, hneD', hneS',
      flipBit_ne _ _ _ hi, flipBit_ne _ _ _ hi']

/-- A mock-mode state whose registries hold one entry each. -/
def wStHit : GlobalState :=
  { liboqs_available := false,
    dilithium_keypairs := fun x => if x = [1] then some [9] else none,
    sphincs_keypairs := fun x => if x = [2] then some [9] else none }

/-- C7 witness. -/
theorem C7_witness :
    (wStHit.liboqs_available = false ∨ inst0.signer = false)
    ∧ wStHit.dilithium_keypairs [1] = some [9] ∧ ([9] : Bytes) ≠ []
    ∧ wStHit.sphincs_keypairs [2] = some [9] ∧ ([9] : Bytes) ≠ []
    ∧ 0 < (dilithium_mock_sign zeroHash [9] [3]).length ∧ 0 < 8
    ∧ 0 < (sphincs_mock_sign zeroHash [9] [3]).length ∧ 0 < 8
    ∧ (((dilithium_verify zeroHash env0 wStHit inst0 [1] [3] (List.replicate 32 0)).2.1 = true
        ↔ (List.replicate 32 0 : Bytes) = dilithium_mock_sign zeroHash [9] [3])
      ∧ (dilithium_verify zeroHash env0 wStHit inst0 [1] [3]
          (flipBit (dilithium_mock_sign zeroHash [9] [3]) 0 0)).2.1 = false
      ∧ ((sphincs_verify zeroHash env0 wStHit inst0 [2] [3] (List.replicate 48 0)).2.1 = true
        ↔ (List.replicate 48 0 : Bytes) = sphincs_mock_sign zeroHash [9] [3])
      ∧ (sphincs_verify zeroHash env0 wStHit inst0 [2] [3]
          (flipBit (sphincs_mock_sign zeroHash [9] [3]) 0 0)).2.1 = false) :=
  ⟨Or.inl rfl, rfl, by decide, rfl, by decide, by decide, by decide, by decide, by decide,
    C7_registry_hit_tamper_detection zeroHash env0 env0 wStHit inst0
      [1] [2] [3] (List.replicate 32 0) (List.replicate 48 0) [9] [9] 0 0 0 0
      (Or.inl rfl) rfl (by decide) rfl (by decide) (by decide) (by decide)
      (by decide) (by decide)⟩

/-- C8: mock-mode operations are deterministic: two instances of the same
class at the same security level, with the same node identity, yield
byte-identical keypairs, and mock signing the same (key, message) twice
yields identical signatures. -/
theorem C8_mock_determinism (H : HashModel) (env env' : Backend)
    (st st' : GlobalState) (inst inst' : Inst) (private_key m : Bytes)
    (hmock : st.liboqs_available = false ∨ inst.signer = false)
    (hmock' : st'.liboqs_available = false ∨ inst'.signer = false)
    (hlvl : inst.security_level = inst'.security_level)
    (hnode : env.nodeId = env'.nodeId) :
    (dilithium_generate_keypair H env st inst).2.1 =
      (dilithium_generate_keypair H env' st' inst').2.1
    ∧ (dilithium_generate_keypair H env st inst).2.2.1 =
      (dilithium_generate_keypair H env' st' inst').2.2.1
    ∧ (sphincs_generate_keypair H env st inst).2.1 =
      (sphincs_generate_keypair H env' st' inst').2.1
    ∧ (sphincs_generate_keypair H env st inst).2.2.1 =
      (sphincs_generate_keypair H env' st' inst').2.2.1
    ∧ (dilithium_sign H env st inst private_key m).2.1 =
      (dilithium_sign H env' st' inst' private_key m).2.1
    ∧ (sphincs_sign H env st inst private_key m).2.1 =
      (sphincs_sign H env' st' inst' private_key m).2.1 := by
  rw [dilithium_gen_mock_eq H env st inst hmock,
    dilithium_gen_mock_eq H env' st' inst' hmock',
    sphincs_gen_mock_eq H env st inst hmock,
    sphincs_gen_mock_eq H env' st' inst' hmock',
    dilithium_sign_mock_eq H env st inst private_key m hmock,
    dilithium_sign_mock_eq H env' st' inst' private_key m hmock',
    sphincs_sign_mock_eq H env st inst private_key m hmock,
    sphincs_sign_mock_eq H env' st' inst' private_key m hmock']
  rw [hlvl, hnode]
  exact ⟨rfl, rfl, rfl, rfl, rfl, rfl⟩

/-- C8 witness. -/
theorem C8_witness :
    (st0.liboqs_available = false ∨ inst0.signer = false)
    ∧ (st0.liboqs_available = false ∨ instR.signer = false)
    ∧ inst0.security_level = instR.security_level
    ∧ env0.nodeId = env0.nodeId
    ∧ ((dilithium_generate_keypair zeroHash env0 st0 inst0).2.1 =
        (dilithium_generate_keypair zeroHash env0 st0 instR).2.1
    ∧ (dilithium_generate_keypair zeroHash env0 st0 inst0).2.2.1 =
        (dilithium_generate_keypair zeroHash env0 st0 instR).2.2.1
    ∧ (sphincs_generate_keypair zeroHash env0 st0 inst0).2.1 =
        (sphincs_generate_keypair zeroHash env0 st0 instR).2.1
    ∧ (sphincs_generate_keypair zeroHash env0 st0 inst0).2.2.1 =
        (sphincs_generate_keypair zeroHash env0 st0 instR).2.2.1
    ∧ (dilithium_sign zeroHash env0 st0 inst0 [9] [3]).2.1 =
        (dilithium_sign zeroHash env0 st0 instR [9] [3]).2.1
    ∧ (sphincs_sign zeroHash env0 st0 inst0 [9] [3]).2.1 =
        (sphincs_sign zeroHash env0 st0 instR [9] [3]).2.1) :=
  ⟨Or.inl rfl, Or.inl rfl, rfl, rfl,
    C8_mock_determinism zeroHash env0 env0 st0 st0 inst0 instR [9] [3]
      (Or.inl rfl) (Or.inl rfl) rfl rfl⟩

/-- Mock Dilithium verification on a registry hit is recomputation plus
comparison. -/
theorem dilithium_verify_hit (H : HashModel) (env : Backend) (st : GlobalState)
    (inst : Inst) (pub m sig priv : Bytes)
    (hmock : st.liboqs_available = false ∨ inst.signer = false)
    (hhit : st.dilithium_keypairs pub = some priv)
    (hne : priv.isEmpty = false) :
    (dilithium_verify H env st inst pub m sig).2.1 =
      decide (sig = dilithium_mock_sign H priv m) := by
  rw [dilithium_verify_mock_eq H env st inst pub m sig hmock]
  simp [dilithium_mock_verify, hhit, hne]

/-- Mock SPHINCS+ verification on a registry hit is recomputation plus
comparison. -/
theorem sphincs_verify_hit (H : HashModel) (env : Backend) (st : GlobalState)
    (inst : Inst) (pub m sig priv : Bytes)
    (hmock : st.liboqs_available = false ∨ inst.signer = false)
    (hhit : st.sphincs_keypairs pub = some priv)
    (hne : priv.isEmpty = false) :
    (sphincs_verify H env st inst pub m sig).2.1 =
      decide (sig = sphincs_mock_sign H priv m) := by
  rw [sphincs_verify_mock_eq H env st inst pub m sig hmock]
  simp [sphincs_mock_verify, hhit, hne]

/-- C10: each class's `_mock_keypairs` dict is shared by all instances of
that class and keyed only by public key: after any instance generates a mock
keypair, `verify` on any instance of the same class — whatever its security
level — takes the registry-hit recomputation path for that public key, and
its outcome does not depend on the verifying instance. -/
theorem C10_registry_shared_across_instances (H : HashModel)
    (envG envV envV' envG'' envW envW' : Backend)
    (st stS st₁ st₂ : GlobalState) (inst₁ inst₂ inst₃ inst₄ inst₅ inst₆ : Inst)
    (pub priv pubS privS m mS sig sigS : Bytes) (p pS : Path)
    (hmock₁ : st.liboqs_available = false ∨ inst₁.signer = false)
    (hgen : dilithium_generate_keypair H envG st inst₁ = (st₁, pub, priv, p))
    (hmock₂ : st₁.liboqs_available = false ∨ inst₂.signer = false)
    (hmock₃ : st₁.liboqs_available = false ∨ inst₃.signer = false)
    (hmock₄ : stS.liboqs_available = false ∨ inst₄.signer = false)
    (hgenS : sphincs_generate_keypair H envG'' stS inst₄ = (st₂, pubS, privS, pS))
    (hmock₅ : st₂.liboqs_available = false ∨ inst₅.signer = false)
    (hmock₆ : st₂.liboqs_available = false ∨ inst₆.signer = false) :
    st₁.dilithium_keypairs pub = some priv
    ∧ (dilithium_verify H envV st₁ inst₂ pub m sig).2.1 =
        decide (sig = dilithium_mock_sign H priv m)
    ∧ (dilithium_verify H envV st₁ inst₂ pub m sig).2.1 =
        (dilithium_verify H envV' st₁ inst₃ pub m sig).2.1
    ∧ st₂.sphincs_keypairs pubS = some privS
    ∧ (sphincs_verify H envW st₂ inst₅ pubS mS sigS).2.1 =
        decide (sigS = sphincs_mock_sign H privS mS)
    ∧ (sphincs_verify H envW st₂ inst₅ pubS mS sigS).2.1 =
        (sphincs_verify H envW' st₂ inst₆ pubS mS sigS).2.1 := by
  rw [dilithium_gen_mock_eq H envG st inst₁ hmock₁] at hgen
  simp only [Prod.mk.injEq] at hgen
  obtain ⟨h1, h2, h3, h4⟩ := hgen
  subst h1 h2 h3
  rw [sphincs_gen_mock_eq H envG'' stS inst₄ hmock₄] at hgenS
  simp only [Prod.mk.injEq] at hgenS
  obtain ⟨h5, h6, h7, h8⟩ := hgenS
  subst h5 h6 h7
  have hhitD : ({ st with dilithium_keypairs := st.dilithium_keypairs.insert (dilithium_mock_pub H inst₁.security_level envG.nodeId) (dilithium_mock_priv H inst₁.security_level envG.nodeId) } : GlobalState).dilithium_keypairs (dilithium_mock_pub H inst₁.security_level envG.nodeId) = some (dilithium_mock_priv H inst₁.security_level envG.nodeId) := by
    simp [Registry.insert]
  have hhitS : ({ stS with sphincs_keypairs := stS.sphincs_keypairs.insert (sphincs_mock_pub H inst₄.security_level envG''.nodeId) (sphincs_mock_priv H inst₄.security_level envG''.nodeId) } : GlobalState).sphincs_keypairs (sphincs_mock_pub H inst₄.security_level envG''.nodeId) = some (sphincs_mock_priv H inst₄.security_level envG''.nodeId) := by
    simp [Registry.insert]
  refine ⟨hhitD, ?_, ?_, hhitS, ?_, ?_⟩
  · exact dilithium_verify_hit H envV _ inst₂ _ m sig _
      (by simpa using hmock₂) hhitD (dilithium_mock_priv_isEmpty H _ _)
  · rw [dilithium_verify_hit H envV _ inst₂ _ m sig _
        (by simpa using hmock₂) hhitD (dilithium_mock_priv_isEmpty H _ _),
      dilithium_verify_hit H envV' _ inst₃ _ m sig _
        (by simpa using hmock₃) hhitD (dilithium_mock_priv_isEmpty H _ _)]
  · exact sphincs_verify_hit H envW _ inst₅ _ mS sigS _
      (by simpa using hmock₅) hhitS (sphincs_mock_priv_isEmpty H _ _)
  · rw [sphincs_verify_hit H envW _ inst₅ _ mS sigS _
        (by simpa using hmock₅) hhitS (sphincs_mock_priv_isEmpty H _ _),
      sphincs_verify_hit H envW' _ inst₆ _ mS sigS _
        (by simpa using hmock₆) hhitS (sphincs_mock_priv_isEmpty H _ _)]

/-- C10 witness. -/
theorem C10_witness :
    (st0.liboqs_available = false ∨ inst0.signer = false)
    ∧ dilithium_generate_keypair zeroHash env0 st0 inst0 =
        (wStD, dilithium_mock_pub zeroHash 3 "node", dilithium_mock_priv zeroHash 3 "node", Path.mock)
    ∧ (wStD.liboqs_available = false ∨ instR.signer = false)
    ∧ (wStD.liboqs_available = false ∨ inst0.signer = false)
    ∧ (st0.liboqs_available = false ∨ inst0.signer = false)
    ∧ sphincs_generate_keypair zeroHash env0 st0 inst0 =
        (wStS, sphincs_mock_pub zeroHash 3 "node", sphincs_mock_priv zeroHash 3 "node", Path.mock)
    ∧ (wStS.liboqs_available = false ∨ instR.signer = false)
    ∧ (wStS.liboqs_available = false ∨ inst0.signer = false)
    ∧ (wStD.dilithium_keypairs (dilithium_mock_pub zeroHash 3 "node") =
        some (dilithium_mock_priv zeroHash 3 "node")
    ∧ (dilithium_verify zeroHash env0 wStD instR (dilithium_mock_pub zeroHash 3 "node") [3] [4]).2.1 =
        decide (([4] : Bytes) = dilithium_mock_sign zeroHash (dilithium_mock_priv zeroHash 3 "node") [3])
    ∧ (dilithium_verify zeroHash env0 wStD instR (dilithium_mock_pub zeroHash 3 "node") [3] [4]).2.1 =
        (dilithium_verify zeroHash env0 wStD inst0 (dilithium_mock_pub zeroHash 3 "node") [3] [4]).2.1
    ∧ wStS.sphincs_keypairs (sphincs_mock_pub zeroHash 3 "node") =
        some (sphincs_mock_priv zeroHash 3 "node")
    ∧ (sphincs_verify zeroHash env0 wStS instR (sphincs_mock_pub zeroHash 3 "node") [5] [6]).2.1 =
        decide (([6] : Bytes) = sphincs_mock_sign zeroHash (sphincs_mock_priv zeroHash 3 "node") [5])
    ∧ (sphincs_verify zeroHash env0 wStS instR (sphincs_mock_pub zeroHash 3 "node") [5] [6]).2.1 =
        (sphincs_verify zeroHash env0 wStS inst0 (sphincs_mock_pub zeroHash 3 "node") [5] [6]).2.1) :=
  ⟨Or.inl rfl, rfl, Or.inl rfl, Or.inl rfl, Or.inl rfl, rfl, Or.inl rfl, Or.inl rfl, by
    exact C10_registry_shared_across_instances zeroHash env0 env0 env0 env0 env0 env0
      st0 st0 _ _ inst0 instR inst0 inst0 instR inst0 _ _ _ _ [3] [5] [4] [6] _ _
      (Or.inl rfl) rfl (Or.inl rfl) (Or.inl rfl) (Or.inl rfl) rfl (Or.inl rfl) (Or.inl rfl)⟩

/-- C5: in mock mode, for a public key absent from the class's mock
registry, `verify` returns `true` exactly when the signature has the class's
fixed mock length (32 bytes for Dilithium, 48 for SPHINCS+), for every
message and every signature content. -/
theorem C5_registry_miss_length_check (H : HashModel) (env : Backend)
    (st : GlobalState) (inst : Inst) (pub m sig : Bytes)
    (hmock : st.liboqs_available = false ∨ inst.signer = false)
    (hd : st.dilithium_keypairs pub = none)
    (hs : st.sphincs_keypairs pub = none) :
    ((dilithium_verify H env st inst pub m sig).2.1 = true ↔ sig.length = 32)
    ∧ ((sphincs_verify H env st inst pub m sig).2.1 = true ↔ sig.length = 48) := by
  constructor <;>
    simp [dilithium_verify, sphincs_verify, dilithium_mock_verify,
      sphincs_mock_verify, hmock, hd, hs]

/-- C5 witness. -/
theorem C5_witness :
    (st0.liboqs_available = false ∨ inst0.signer = false)
    ∧ st0.dilithium_keypairs [1] = none ∧ st0.sphincs_keypairs [1] = none
    ∧ (((dilithium_verify zeroHash env0 st0 inst0 [1] [] (List.replicate 32 0)).2.1 = true
        ↔ (List.replicate 32 0 : Bytes).length = 32)
      ∧ ((sphincs_verify zeroHash env0 st0 inst0 [1] [] (List.replicate 32 0)).2.1 = true
        ↔ (List.replicate 32 0 : Bytes).length = 48)) :=
  ⟨Or.inl rfl, rfl, rfl,
    C5_registry_miss_length_check zeroHash env0 st0 inst0 [1] [] (List.replicate 32 0)
      (Or.inl rfl) rfl rfl⟩

/-- C3: the process-wide `LIBOQS_AVAILABLE` flag is monotone: once it is
`false` it stays `false` through any single call and any call sequence, and
from then on every operation of either class — whatever instance it runs
on — returns through the mock branch. -/
theorem C3_downgrade_monotone (H : HashModel) (st : GlobalState)
    (op : Op) (env : Backend) (acts : List (Op × Backend))
    (h : st.liboqs_available = false) :
    (step H st (op, env)).1.liboqs_available = false
    ∧ ((step H st (op, env)).2).path ≠ some Path.real
    ∧ (run H st acts).liboqs_available = false := by
  refine ⟨step_flag_mono H st (op, env) h, ?_, run_flag_mono H acts st h⟩
  cases op <;>
    simp [step, StepOut.path, dilithium_generate_keypair, dilithium_sign,
      dilithium_verify, sphincs_generate_keypair, sphincs_sign, sphincs_verify,
      dilithium_mock_generate, sphincs_mock_generate,
      dilithium_init, sphincs_init, h]

/-- C3 witness. -/
theorem C3_witness :
    st0.liboqs_available = false
    ∧ ((step zeroHash st0 (Op.dGen instR, envOk)).1.liboqs_available = false
    ∧ ((step zeroHash st0 (Op.dGen instR, envOk)).2).path ≠ some Path.real
    ∧ (run zeroHash st0 [(Op.sSign instR [1] [2], envOk)]).liboqs_available = false) :=
  ⟨rfl, C3_downgrade_monotone zeroHash st0 (Op.dGen instR) envOk
    [(Op.sSign instR [1] [2], envOk)] rfl⟩

/-- C4: when the backend is live on the instance but its calls raise, every
operation of both classes terminates within recursion depth two (any fuel
≥ 2 computes the same `some` result as the once-unrolled function, so the
caller never sees the exception), the result is produced by the mock branch,
and the availability flag ends up cleared. -/
theorem C4_retry_bounded_and_masks_errors (H : HashModel) (env : Backend)
    (st : GlobalState) (inst : Inst)
    (private_key message public_key signature : Bytes) (fuel : Nat)
    (hflag : st.liboqs_available = true) (hsigner : inst.signer = true)
    (hgen : env.genKeypair = none) (hsign : env.signRes = none)
    (hver : env.verifyRes = none) :
    (dilithium_generate_keypair_fuel H env (fuel + 2) st inst =
        some (dilithium_generate_keypair H env st inst)
      ∧ (dilithium_generate_keypair H env st inst).2.2.2 = Path.mock
      ∧ (dilithium_generate_keypair H env st inst).1.liboqs_available = false)
    ∧ (dilithium_sign_fuel H env (fuel + 2) st inst private_key message =
        some (dilithium_sign H env st inst private_key message)
      ∧ (dilithium_sign H env st inst private_key message).2.2 = Path.mock
      ∧ (dilithium_sign H env st inst private_key message).1.liboqs_available = false)
    ∧ (dilithium_verify_fuel H env (fuel + 2) st inst public_key message signature =
        some (dilithium_verify H env st inst public_key message signature)
      ∧ (dilithium_verify H env st inst public_key message signature).2.2 = Path.mock
      ∧ (dilithium_verify H env st inst public_key message signature).1.liboqs_available = false)
    ∧ (sphincs_generate_keypair_fuel H env (fuel + 2) st inst =
        some (sphincs_generate_keypair H env st inst)
      ∧ (sphincs_generate_keypair H env st inst).2.2.2 = Path.mock
      ∧ (sphincs_generate_keypair H env st inst).1.liboqs_available = false)
    ∧ (sphincs_sign_fuel H env (fuel + 2) st inst private_key message =
        some (sphincs_sign H env st inst private_key message)
      ∧ (sphincs_sign H env st inst private_key message).2.2 = Path.mock
      ∧ (sphincs_sign H env st inst private_key message).1.liboqs_available = false)
    ∧ (sphincs_verify_fuel H env (fuel + 2) st inst public_key message signature =
        some (sphincs_verify H env st inst public_key message signature)
      ∧ (sphincs_verify H env st inst public_key message signature).2.2 = Path.mock
      ∧ (sphincs_verify H env st inst public_key message signature).1.liboqs_available = false) := by
  refine ⟨⟨?_, ?_, ?_⟩, ⟨?_, ?_, ?_⟩, ⟨?_, ?_, ?_⟩, ⟨?_, ?_, ?_⟩, ⟨?_, ?_, ?_⟩, ⟨?_, ?_, ?_⟩⟩ <;>
    simp [dilithium_generate_keypair_fuel, dilithium_generate_keypair,
      dilithium_sign_fuel, dilithium_sign, dilithium_verify_fuel, dilithium_verify,
      sphincs_generate_keypair_fuel, sphincs_generate_keypair,
      sphincs_sign_fuel, sphincs_sign, sphincs_verify_fuel, sphincs_verify,
      dilithium_mock_generate, sphincs_mock_generate,
      hflag, hsigner, hgen, hsign, hver]

/-- C4 witness. -/
theorem C4_witness :
    stTrue.liboqs_available = true ∧ instR.signer = true
    ∧ env0.genKeypair = none ∧ env0.signRes = none ∧ env0.verifyRes = none
    ∧ ((dilithium_generate_keypair_fuel zeroHash env0 (0 + 2) stTrue instR =
        some (dilithium_generate_keypair zeroHash env0 stTrue instR)
      ∧ (dilithium_generate_keypair zeroHash env0 stTrue instR).2.2.2 = Path.mock
      ∧ (dilithium_generate_keypair zeroHash env0 stTrue instR).1.liboqs_available = false)
    ∧ (dilithium_sign_fuel zeroHash env0 (0 + 2) stTrue instR [1] [2] =
        some (dilithium_sign zeroHash env0 stTrue instR [1] [2])
      ∧ (dilithium_sign zeroHash env0 stTrue instR [1] [2]).2.2 = Path.mock
      ∧ (dilithium_sign zeroHash env0 stTrue instR [1] [2]).1.liboqs_available = false)
    ∧ (dilithium_verify_fuel zeroHash env0 (0 + 2) stTrue instR [3] [2] [4] =
        some (dilithium_verify zeroHash env0 stTrue instR [3] [2] [4])
      ∧ (dilithium_verify zeroHash env0 stTrue instR [3] [2] [4]).2.2 = Path.mock
      ∧ (dilithium_verify zeroHash env0 stTrue instR [3] [2] [4]).1.liboqs_available = false)
    ∧ (sphincs_generate_keypair_fuel zeroHash env0 (0 + 2) stTrue instR =
        some (sphincs_generate_keypair zeroHash env0 stTrue instR)
      ∧ (sphincs_generate_keypair zeroHash env0 stTrue instR).2.2.2 = Path.mock
      ∧ (sphincs_generate_keypair zeroHash env0 stTrue instR).1.liboqs_available = false)
    ∧ (sphincs_sign_fuel zeroHash env0 (0 + 2) stTrue instR [1] [2] =
        some (sphincs_sign zeroHash env0 stTrue instR [1] [2])
      ∧ (sphincs_sign zeroHash env0 stTrue instR [1] [2]).2.2 = Path.mock
      ∧ (sphincs_sign zeroHash env0 stTrue instR [1] [2]).1.liboqs_available = false)
    ∧ (sphincs_verify_fuel zeroHash env0 (0 + 2) stTrue instR [3] [2] [4] =
        some (sphincs_verify zeroHash env0 stTrue instR [3] [2] [4])
      ∧ (sphincs_verify zeroHash env0 stTrue instR [3] [2] [4]).2.2 = Path.mock
      ∧ (sphincs_verify zeroHash env0 stTrue instR [3] [2] [4]).1.liboqs_available = false)) :=
  ⟨rfl, rfl, rfl, rfl, rfl,
    C4_retry_bounded_and_masks_errors zeroHash env0 stTrue instR [1] [2] [3] [4] 0
      rfl rfl rfl rfl rfl⟩

/-- `DilithiumSignature.sign` never touches either registry. -/
theorem dilithium_sign_regs (H : HashModel) (env : Backend) (st : GlobalState)
    (inst : Inst) (private_key message : Bytes) :
    (dilithium_sign H env st inst private_key message).1.dilithium_keypairs = st.dilithium_keypairs
    ∧ (dilithium_sign H env st inst private_key message).1.sphincs_keypairs = st.sphincs_keypairs := by
  by_cases hm : st.liboqs_available = false ∨ inst.signer = false
  · simp [dilithium_sign, hm]
  · cases hr : env.signRes <;> simp [dilithium_sign, hm, hr]

/-- `SPHINCSSignature.sign` never touches either registry. -/
theorem sphincs_sign_regs (H : HashModel) (env : Backend) (st : GlobalState)
    (inst : Inst) (private_key message : Bytes) :
    (sphincs_sign H env st inst private_key message).1.dilithium_keypairs = st.dilithium_keypairs
    ∧ (sphincs_sign H env st inst private_key message).1.sphincs_keypairs = st.sphincs_keypairs := by
  by_cases hm : st.liboqs_available = false ∨ inst.signer = false
  · simp [sphincs_sign, hm]
  · cases hr : env.signRes <;> simp [sphincs_sign, hm, hr]

/-- `DilithiumSignature.verify` never touches either registry. -/
theorem dilithium_verify_regs (H : HashModel) (env : Backend) (st : GlobalState)
    (inst : Inst) (public_key message signature : Bytes) :
    (dilithium_verify H env st inst public_key message signature).1.dilithium_keypairs = st.dilithium_keypairs
    ∧ (dilithium_verify H env st inst public_key message signature).1.sphincs_keypairs = st.sphincs_keypairs := by
  by_cases hm : st.liboqs_available = false ∨ inst.signer = false
  · simp [dilithium_verify, hm]
  · cases hr : env.verifyRes <;> simp [dilithium_verify, hm, hr]

/-- `SPHINCSSignature.verify` never touches either registry. -/
theorem sphincs_verify_regs (H : HashModel) (env : Backend) (st : GlobalState)
    (inst : Inst) (public_key message signature : Bytes) :
    (sphincs_verify H env st inst public_key message signature).1.dilithium_keypairs = st.dilithium_keypairs
    ∧ (sphincs_verify H env st inst public_key message signature).1.sphincs_keypairs = st.sphincs_keypairs := by
  by_cases hm : st.liboqs_available = false ∨ inst.signer = false
  · simp [sphincs_verify, hm]
  · cases hr : env.verifyRes <;> simp [sphincs_verify, hm, hr]

/-- `DilithiumSignature.generate_keypair` never touches the SPHINCS+
registry, and changes the Dilithium registry at most by inserting the
returned pair. -/
theorem dilithium_gen_regs (H : HashModel) (env : Backend) (st : GlobalState)
    (inst : Inst) :
    (dilithium_generate_keypair H env st inst).1.sphincs_keypairs = st.sphincs_keypairs
    ∧ ((dilithium_generate_keypair H env st inst).1.dilithium_keypairs = st.dilithium_keypairs
      ∨ (dilithium_generate_keypair H env st inst).1.dilithium_keypairs =
          st.dilithium_keypairs.insert (dilithium_generate_keypair H env st inst).2.1
            (dilithium_generate_keypair H env st inst).2.2.1) := by
  by_cases hm : st.liboqs_available = false ∨ inst.signer = false
  · simp [dilithium_generate_keypair, hm, dilithium_mock_generate]
  · cases hr : env.genKeypair with
    | some pr =>
      cases pr
      simp [dilithium_generate_keypair, hm, hr]
    | none => simp [dilithium_generate_keypair, hm, hr, dilithium_mock_generate]

/-- `SPHINCSSignature.generate_keypair` never touches the Dilithium
registry, and changes the SPHINCS+ registry at most by inserting the
returned pair. -/
theorem sphincs_gen_regs (H : HashModel) (env : Backend) (st : GlobalState)
    (inst : Inst) :
    (sphincs_generate_keypair H env st inst).1.dilithium_keypairs = st.dilithium_keypairs
    ∧ ((sphincs_generate_keypair H env st inst).1.sphincs_keypairs = st.sphincs_keypairs
      ∨ (sphincs_generate_keypair H env st inst).1.sphincs_keypairs =
          st.sphincs_keypairs.insert (sphincs_generate_keypair H env st inst).2.1
            (sphincs_generate_keypair H env st inst).2.2.1) := by
  by_cases hm : st.liboqs_available = false ∨ inst.signer = false
  · simp [sphincs_generate_keypair, hm, sphincs_mock_generate]
  · cases hr : env.genKeypair with
    | some pr =>
      cases pr
      simp [sphincs_generate_keypair, hm, hr]
    | none => simp [sphincs_generate_keypair, hm, hr, sphincs_mock_generate]

/-- Constructions never touch either registry. -/
theorem init_regs (H : HashModel) (env : Backend) (st : GlobalState) (lvl : Nat) :
    (step H st (Op.dInit lvl, env)).1.dilithium_keypairs = st.dilithium_keypairs
    ∧ (step H st (Op.dInit lvl, env)).1.sphincs_keypairs = st.sphincs_keypairs
    ∧ (step H st (Op.sInit lvl, env)).1.dilithium_keypairs = st.dilithium_keypairs
    ∧ (step H st (Op.sInit lvl, env)).1.sphincs_keypairs = st.sphincs_keypairs := by
  refine ⟨?_, ?_, ?_, ?_⟩ <;>
    · simp only [step]
      rcases hi : dilithium_init env st.liboqs_available lvl with e | p <;>
        rcases hj : sphincs_init env st.liboqs_available lvl with e' | p' <;>
        simp [hi, hj]

/-- C9: the mock registries are written only by `generate_keypair` — which
inserts exactly the returned (public, private) pair, and always does so on
the mock path — `sign` and `verify` leave both registries of both classes
untouched, constructions touch neither, and registered keys survive every
call sequence. -/
theorem C9_registry_frame (H : HashModel) (env : Backend) (st : GlobalState)
    (inst : Inst) (private_key message public_key signature k : Bytes)
    (lvl : Nat) (acts : List (Op × Backend))
    (hd : st.dilithium_keypairs k ≠ none) (hs : st.sphincs_keypairs k ≠ none) :
    (dilithium_sign H env st inst private_key message).1.dilithium_keypairs = st.dilithium_keypairs
    ∧ (dilithium_sign H env st inst private_key message).1.sphincs_keypairs = st.sphincs_keypairs
    ∧ (dilithium_verify H env st inst public_key message signature).1.dilithium_keypairs = st.dilithium_keypairs
    ∧ (dilithium_verify H env st inst public_key message signature).1.sphincs_keypairs = st.sphincs_keypairs
    ∧ (sphincs_sign H env st inst private_key message).1.dilithium_keypairs = st.dilithium_keypairs
    ∧ (sphincs_sign H env st inst private_key message).1.sphincs_keypairs = st.sphincs_keypairs
    ∧ (sphincs_verify H env st inst public_key message signature).1.dilithium_keypairs = st.dilithium_keypairs
    ∧ (sphincs_verify H env st inst public_key message signature).1.sphincs_keypairs = st.sphincs_keypairs
    ∧ (dilithium_generate_keypair H env st inst).1.sphincs_keypairs = st.sphincs_keypairs
    ∧ ((dilithium_generate_keypair H env st inst).1.dilithium_keypairs = st.dilithium_keypairs
      ∨ (dilithium_generate_keypair H env st inst).1.dilithium_keypairs =
          st.dilithium_keypairs.insert (dilithium_generate_keypair H env st inst).2.1
            (dilithium_generate_keypair H env st inst).2.2.1)
    ∧ ((st.liboqs_available = false ∨ inst.signer = false) →
        (dilithium_generate_keypair H env st inst).1.dilithium_keypairs =
          st.dilithium_keypairs.insert (dilithium_generate_keypair H env st inst).2.1
            (dilithium_generate_keypair H env st inst).2.2.1)
    ∧ (sphincs_generate_keypair H env st inst).1.dilithium_keypairs = st.dilithium_keypairs
    ∧ ((sphincs_generate_keypair H env st inst).1.sphincs_keypairs = st.sphincs_keypairs
      ∨ (sphincs_generate_keypair H env st inst).1.sphincs_keypairs =
          st.sphincs_keypairs.insert (sphincs_generate_keypair H env st inst).2.1
            (sphincs_generate_keypair H env st inst).2.2.1)
    ∧ ((st.liboqs_available = false ∨ inst.signer = false) →
        (sphincs_generate_keypair H env st inst).1.sphincs_keypairs =
          st.sphincs_keypairs.insert (sphincs_generate_keypair H env st inst).2.1
            (sphincs_generate_keypair H env st inst).2.2.1)
    ∧ (step H st (Op.dInit lvl, env)).1.dilithium_keypairs = st.dilithium_keypairs
    ∧ (step H st (Op.dInit lvl, env)).1.sphincs_keypairs = st.sphincs_keypairs
    ∧ (step H st (Op.sInit lvl, env)).1.dilithium_keypairs = st.dilithium_keypairs
    ∧ (step H st (Op.sInit lvl, env)).1.sphincs_keypairs = st.sphincs_keypairs
    ∧ (run H st acts).dilithium_keypairs k ≠ none
    ∧ (run H st acts).sphincs_keypairs k ≠ none := by
  obtain ⟨i1, i2, i3, i4⟩ := init_regs H env st lvl
  refine ⟨(dilithium_sign_regs H env st inst private_key message).1,
    (dilithium_sign_regs H env st inst private_key message).2,
    (dilithium_verify_regs H env st inst public_key message signature).1,
    (dilithium_verify_regs H env st inst public_key message signature).2,
    (sphincs_sign_regs H env st inst private_key message).1,
    (sphincs_sign_regs H env st inst private_key message).2,
    (sphincs_verify_regs H env st inst public_key message signature).1,
    (sphincs_verify_regs H env st inst public_key message signature).2,
    (dilithium_gen_regs H env st inst).1,
    (dilithium_gen_regs H env st inst).2, ?_,
    (sphincs_gen_regs H env st inst).1,
    (sphincs_gen_regs H env st inst).2, ?_,
    i1, i2, i3, i4,
    run_dreg_mono H acts st k hd, run_sreg_mono H acts st k hs⟩
  · intro hm
    rw [dilithium_gen_mock_eq H env st inst hm]
  · intro hm
    rw [sphincs_gen_mock_eq H env st inst hm]

/-- A mock-mode state with the same key registered in both registries. -/
def wStK : GlobalState :=
  { liboqs_available := false,
    dilithium_keypairs := fun x => if x = [1] then some [9] else none,
    sphincs_keypairs := fun x => if x = [1] then some [9] else none }

/-- C9 witness. -/
theorem C9_witness :
    wStK.dilithium_keypairs [1] ≠ none ∧ wStK.sphincs_keypairs [1] ≠ none
    ∧ ((dilithium_sign zeroHash env0 wStK inst0 [5] [6]).1.dilithium_keypairs = wStK.dilithium_keypairs
    ∧ (dilithium_sign zeroHash env0 wStK inst0 [5] [6]).1.sphincs_keypairs = wStK.sphincs_keypairs
    ∧ (dilithium_verify zeroHash env0 wStK inst0 [7] [6] [8]).1.dilithium_keypairs = wStK.dilithium_keypairs
    ∧ (dilithium_verify zeroHash env0 wStK inst0 [7] [6] [8]).1.sphincs_keypairs = wStK.sphincs_keypairs
    ∧ (sphincs_sign zeroHash env0 wStK inst0 [5] [6]).1.dilithium_keypairs = wStK.dilithium_keypairs
    ∧ (sphincs_sign zeroHash env0 wStK inst0 [5] [6]).1.sphincs_keypairs = wStK.sphincs_keypairs
    ∧ (sphincs_verify zeroHash env0 wStK inst0 [7] [6] [8]).1.dilithium_keypairs = wStK.dilithium_keypairs
    ∧ (sphincs_verify zeroHash env0 wStK inst0 [7] [6] [8]).1.sphincs_keypairs = wStK.sphincs_keypairs
    ∧ (dilithium_generate_keypair zeroHash env0 wStK inst0).1.sphincs_keypairs = wStK.sphincs_keypairs
    ∧ ((dilithium_generate_keypair zeroHash env0 wStK inst0).1.dilithium_keypairs = wStK.dilithium_keypairs
      ∨ (dilithium_generate_keypair zeroHash env0 wStK inst0).1.dilithium_keypairs =
          wStK.dilithium_keypairs.insert (dilithium_generate_keypair zeroHash env0 wStK inst0).2.1
            (dilithium_generate_keypair zeroHash env0 wStK inst0).2.2.1)
    ∧ ((wStK.liboqs_available = false ∨ inst0.signer = false) →
        (dilithium_generate_keypair zeroHash env0 wStK inst0).1.dilithium_keypairs =
          wStK.dilithium_keypairs.insert (dilithium_generate_keypair zeroHash env0 wStK inst0).2.1
            (dilithium_generate_keypair zeroHash env0 wStK inst0).2.2.1)
    ∧ (sphincs_generate_keypair zeroHash env0 wStK inst0).1.dilithium_keypairs = wStK.dilithium_keypairs
    ∧ ((sphincs_generate_keypair zeroHash env0 wStK inst0).1.sphincs_keypairs = wStK.sphincs_keypairs
      ∨ (sphincs_generate_keypair zeroHash env0 wStK inst0).1.sphincs_keypairs =
          wStK.sphincs_keypairs.insert (sphincs_generate_keypair zeroHash env0 wStK inst0).2.1
            (sphincs_generate_keypair zeroHash env0 wStK inst0).2.2.1)
    ∧ ((wStK.liboqs_available = false ∨ inst0.signer = false) →
        (sphincs_generate_keypair zeroHash env0 wStK inst0).1.sphincs_keypairs =
          wStK.sphincs_keypairs.insert (sphincs_generate_keypair zeroHash env0 wStK inst0).2.1
            (sphincs_generate_keypair zeroHash env0 wStK inst0).2.2.1)
    ∧ (step zeroHash wStK (Op.dInit 3, env0)).1.dilithium_keypairs = wStK.dilithium_keypairs
    ∧ (step zeroHash wStK (Op.dInit 3, env0)).1.sphincs_keypairs = wStK.sphincs_keypairs
    ∧ (step zeroHash wStK (Op.sInit 3, env0)).1.dilithium_keypairs = wStK.dilithium_keypairs
    ∧ (step zeroHash wStK (Op.sInit 3, env0)).1.sphincs_keypairs = wStK.sphincs_keypairs
    ∧ (run zeroHash wStK [(Op.sGen inst0, env0)]).dilithium_keypairs [1] ≠ none
    ∧ (run zeroHash wStK [(Op.sGen inst0, env0)]).sphincs_keypairs [1] ≠ none) :=
  ⟨by decide, by decide,
    C9_registry_frame zeroHash env0 wStK inst0 [5] [6] [7] [8] [1] 3
      [(Op.sGen inst0, env0)] (by decide) (by decide)⟩

end PQSig
